import Mathlib

/-!
Shallow embedding of the MacBook landing-page front-end
(`src/store/index.ts`, `src/components/tresjs/ModelSwitcher.vue`,
`src/components/models/Macbook-16.vue`, `src/components/models/Macbook.vue`,
`src/components/ProductViewer.vue`, `src/components/Features.vue`,
`src/composables/useMediaQuery.ts`).

Numbers that JavaScript holds as doubles (the scale breakpoints, tween
durations and positions) are modelled as exact rationals: every numeric
literal involved is a short decimal that both sides compare with `===`
only against the very same literal, so exact rational arithmetic is a
faithful model of those comparisons.
-/

namespace MacbookSite

/-! ## Store (`src/store/index.ts`)

The Pinia setup store holds three refs.  We model the store state as a
record and each action as a state-transforming function. -/

structure StoreState where
  color : String
  scale : ℚ
  texture : String
deriving DecidableEq, Repr

/-- Initial reactive values (`src/store/index.ts` lines 24-26). -/
def initialState : StoreState :=
  { color := "#2e2c2e", scale := 8/100, texture := "/videos/feature-1.mp4" }

/-- `setColor` (`src/store/index.ts` line 33). -/
def setColor (s : StoreState) (newColor : String) : StoreState :=
  { s with color := newColor }

/-- `setScale` (`src/store/index.ts` line 37). -/
def setScale (s : StoreState) (newScale : ℚ) : StoreState :=
  { s with scale := newScale }

/-- `setTexture` (`src/store/index.ts` line 41). -/
def setTexture (s : StoreState) (newTexture : String) : StoreState :=
  { s with texture := newTexture }

/-- `reset` (`src/store/index.ts` lines 50-54): writes the three
defaults back field by field. -/
def reset (_ : StoreState) : StoreState :=
  { color := "#2e2c2e", scale := 8/100, texture := "/videos/feature-1.mp4" }

/-- An arbitrary setter call with an arbitrary argument. -/
inductive Mutation
  | mutColor (c : String)
  | mutScale (q : ℚ)
  | mutTexture (t : String)

def applyMutation (s : StoreState) : Mutation → StoreState
  | .mutColor c => setColor s c
  | .mutScale q => setScale s q
  | .mutTexture t => setTexture s t

/-- The five video URLs driven through `setTexture` by the scroll
timeline in `Features.vue` (lines 135-158). -/
def featureVideos : List String :=
  ["/videos/feature-1.mp4", "/videos/feature-2.mp4", "/videos/feature-3.mp4",
   "/videos/feature-4.mp4", "/videos/feature-5.mp4"]

/-- The store-mutating events the program's UI actually fires:
the two colour swatches and the two size buttons of
`ProductViewer.vue` (lines 62-91), the five timeline `setTexture`
calls of `Features.vue`, and the explicit `reset` action. -/
inductive UIEvent
  | clickSilver
  | clickSpaceGrey
  | clickSize14
  | clickSize16
  | scrollFeature (i : Fin 5)
  | resetAction

def applyEvent (s : StoreState) : UIEvent → StoreState
  | .clickSilver => setColor s "#adb5bd"
  | .clickSpaceGrey => setColor s "#2e2c2e"
  | .clickSize14 => setScale s (6/100)
  | .clickSize16 => setScale s (8/100)
  | .scrollFeature i => setTexture s (featureVideos.getD i.val "")
  | .resetAction => reset s

/-- A run of the application: the initial store state followed by any
sequence of UI events. -/
def runEvents (es : List UIEvent) : StoreState :=
  es.foldl applyEvent initialState

/-- The four device-scale values that appear in the code: the
`ModelSwitcher.vue` template passes `0.05`/`0.08` for the 16-inch model
and `0.03`/`0.06` for the 14-inch model (lines 168, 173). -/
def deviceScales : List ℚ := [3/100, 5/100, 6/100, 8/100]

/-- The two chassis colours offered by the colour control of
`ProductViewer.vue`: Silver and Space Grey. -/
def chassisColors : List String := ["#adb5bd", "#2e2c2e"]

/-! ## Model switcher (`src/components/tresjs/ModelSwitcher.vue`) -/

/-- `ANIMATION_DURATION` (line 34): seconds for the transition. -/
def ANIMATION_DURATION : ℚ := 1

/-- `OFFSET_DISTANCE` (line 35): 3D units used to slide a model off
screen. -/
def OFFSET_DISTANCE : ℚ := 5

/-- `SCALE_LARGE_DESKTOP` (line 36). -/
def SCALE_LARGE_DESKTOP : ℚ := 8/100

/-- `SCALE_LARGE_MOBILE` (line 37). -/
def SCALE_LARGE_MOBILE : ℚ := 5/100

/-- The computed `showLargeMacbook` (lines 100-102):
`props.scale === SCALE_LARGE_DESKTOP || props.scale === SCALE_LARGE_MOBILE`. -/
def showLargeMacbook (scale : ℚ) : Bool :=
  scale == SCALE_LARGE_DESKTOP || scale == SCALE_LARGE_MOBILE

/-- The two models the switcher manages. -/
inductive ModelId
  | small
  | large
deriving DecidableEq, Repr

/-- Which model a given scale makes visible: the branch taken by the
watcher body (line 125). -/
def targetModel (scale : ℚ) : ModelId :=
  if showLargeMacbook scale then ModelId.large else ModelId.small

def otherModel : ModelId → ModelId
  | .small => .large
  | .large => .small

/-- A GSAP tween issued by the watcher: `moveGroup` animates
`group.position.x` to `x`, `fadeMeshes` animates every mesh material's
opacity to `opacity` (lines 67-91). -/
inductive TweenCommand
  | move (m : ModelId) (x : ℚ) (duration : ℚ)
  | fade (m : ModelId) (opacity : ℚ) (duration : ℚ)
deriving DecidableEq, Repr

/-- The tweens the two branches of the watcher issue (lines 125-143),
in source order. -/
def branchCommands (scale duration : ℚ) : List TweenCommand :=
  if showLargeMacbook scale then
    [TweenCommand.move .small (-OFFSET_DISTANCE) duration,
     TweenCommand.move .large 0 duration,
     TweenCommand.fade .small 0 duration,
     TweenCommand.fade .large 1 duration]
  else
    [TweenCommand.move .small 0 duration,
     TweenCommand.move .large OFFSET_DISTANCE duration,
     TweenCommand.fade .small 1 duration,
     TweenCommand.fade .large 0 duration]

/-- One firing of the `SCALE_TRANSITION_MANAGER` watcher: the scale it
sees and whether each model ref has loaded. -/
structure WatchInput where
  scale : ℚ
  smallLoaded : Bool
  largeLoaded : Bool
deriving DecidableEq, Repr

/-- One execution of the watcher body (lines 116-154): the guard
aborts when either ref is missing; otherwise the duration is 0 on the
first run and `ANIMATION_DURATION` afterwards, the branch tweens are
issued and the first-run flag is cleared.  Returns the issued tweens
and the new `isFirstRun` flag. -/
def watcherStep (inp : WatchInput) (isFirstRun : Bool) :
    List TweenCommand × Bool :=
  if inp.smallLoaded && inp.largeLoaded then
    (branchCommands inp.scale (if isFirstRun then 0 else ANIMATION_DURATION),
     false)
  else
    ([], isFirstRun)

/-- An input passes the watcher's guard when both refs are loaded. -/
def effectiveInput (inp : WatchInput) : Bool :=
  inp.smallLoaded && inp.largeLoaded

/-- The tween batches issued by the guard-passing executions of a
sequence of watcher firings, threading the first-run flag. -/
def effOutputs : List WatchInput → Bool → List (List TweenCommand)
  | [], _ => []
  | inp :: rest, first =>
    if effectiveInput inp then
      (watcherStep inp first).1 :: effOutputs rest (watcherStep inp first).2
    else
      effOutputs rest (watcherStep inp first).2

/-- The value of the `isFirstRun` flag after a sequence of watcher
firings. -/
def finalFirstRun : List WatchInput → Bool → Bool
  | [], first => first
  | inp :: rest, first => finalFirstRun rest (watcherStep inp first).2

/-- The x position each model is slid to when it is the one leaving the
screen: the small model exits to `-OFFSET_DISTANCE`, the large to
`+OFFSET_DISTANCE` (lines 128, 138). -/
def slideOutX : ModelId → ℚ
  | .small => -OFFSET_DISTANCE
  | .large => OFFSET_DISTANCE

/-! ## 16-inch model screen texture (`src/components/models/Macbook-16.vue`) -/

/-- Three.js colour-space tag: textures start in the default (linear)
space and the component switches the screen texture to sRGB. -/
inductive ColorSpace
  | linear
  | srgb
deriving DecidableEq, Repr

/-- The observable fields of the loaded screen `Texture` that the
component touches (lines 52-55). -/
structure ScreenTexture where
  colorSpace : ColorSpace
  flipY : Bool
  needsUpdate : Bool
deriving DecidableEq, Repr

/-- A console message emitted during setup. -/
inductive LogEvent
  | warn (msg : String)
  | logError (msg : String)
deriving DecidableEq, Repr

/-- The `try`/`catch` around `textureLoader.loadAsync` in
`Macbook-16.vue` (lines 48-64).  `loadResult` stands for the outcome of
the awaited load; `hasObject123`/`hasUV` for the UV sanity check on the
screen node.  On success the texture is configured (sRGB, `flipY`,
`needsUpdate`) and a missing-UV warning may be logged; on failure the
error is logged and `texture` stays `null`. -/
def macbook16TextureSetup (loadResult : Except String ScreenTexture)
    (hasObject123 : Bool) (hasUV : Bool) :
    Option ScreenTexture × List LogEvent :=
  match loadResult with
  | .ok t =>
    (some { t with colorSpace := .srgb, flipY := true, needsUpdate := true },
     if hasObject123 && !hasUV then
       [LogEvent.warn
         "Macbook-16: Object_123 has no UV attributes! Texture data cannot be mapped."]
     else [])
  | .error _ =>
    (none, [LogEvent.logError "Macbook-16: Error loading texture"])

/-- The material the screen mesh's template chooses (lines 86-89):
the textured standard material when a texture exists, a plain black
standard material otherwise. -/
inductive ScreenMaterial
  | texturedStandard (map : ScreenTexture)
  | blackPlaceholder
deriving DecidableEq, Repr

def screenMaterial : Option ScreenTexture → ScreenMaterial
  | some t => ScreenMaterial.texturedStandard t
  | none => ScreenMaterial.blackPlaceholder

/-- What the template renders (line 68): the whole group is shown iff
`nodes.Object_10` exists, independently of the screen texture; the
screen mesh carries `screenMaterial`. -/
structure RenderedModel where
  groupShown : Bool
  screen : ScreenMaterial
deriving DecidableEq, Repr

def renderMacbook16 (hasObject10 : Bool) (tex : Option ScreenTexture) :
    RenderedModel :=
  { groupShown := hasObject10, screen := screenMaterial tex }

/-- The whole observable effect of the `Macbook-16.vue` setup on store
state, screen texture, console and render output.  The component reads
the store but never writes it, which the pass-through of `store`
records. -/
def macbook16Component (store : StoreState)
    (loadResult : Except String ScreenTexture)
    (hasObject10 hasObject123 hasUV : Bool) :
    StoreState × Option ScreenTexture × List LogEvent × RenderedModel :=
  let setup := macbook16TextureSetup loadResult hasObject123 hasUV
  (store, setup.1, setup.2, renderMacbook16 hasObject10 setup.1)

/-! ## Feature-section video model (`src/components/models/Macbook.vue`) -/

/-- The fields of the `<video>` element the texture-sync logic touches. -/
structure VideoElement where
  src : String
  playing : Bool
deriving DecidableEq, Repr

/-- The `VideoTexture` configuration the component creates
(lines 80-82 and 93-95): sRGB colour space, `flipY = false`. -/
structure VideoTexture where
  colorSpace : ColorSpace
  flipY : Bool
deriving DecidableEq, Repr

def newVideoTexture : VideoTexture :=
  { colorSpace := .srgb, flipY := false }

/-- One firing of the `watch(textureUrl)` handler
(`Macbook.vue` lines 85-100).  A JavaScript string is truthy exactly
when non-empty: on a non-empty URL the video's `src` is set, playback
starts and the `VideoTexture` is lazily created; on an empty URL the
video is paused and nothing else changes. -/
def textureSyncStep (newUrl : String) (video : VideoElement)
    (videoTexture : Option VideoTexture) :
    VideoElement × Option VideoTexture :=
  if newUrl = "" then
    ({ video with playing := false }, videoTexture)
  else
    ({ video with src := newUrl, playing := true },
     match videoTexture with
     | none => some newVideoTexture
     | some t => some t)

/-- The screen-mesh material of `Macbook.vue` (lines 143-146): the
video-textured standard material when a `VideoTexture` exists, black
otherwise. -/
inductive FeatureScreenMaterial
  | videoTextured (map : VideoTexture)
  | blackColor
deriving DecidableEq, Repr

def featureScreenMaterial : Option VideoTexture → FeatureScreenMaterial
  | some t => FeatureScreenMaterial.videoTextured t
  | none => FeatureScreenMaterial.blackColor

/-! ## Media query composable (`src/composables/useMediaQuery.ts`) -/

/-- The parts of the host environment the composable consults:
whether `window` exists, whether `window.matchMedia` exists, and what
`window.matchMedia(query).matches` would report. -/
structure BrowserEnv where
  hasWindow : Bool
  hasMatchMedia : Bool
  queryMatches : String → Bool

/-- The result of `useMediaQuery`: the initial value of the returned
ref and whether a change listener gets registered on mount. -/
structure MediaQueryHook where
  value : Bool
  listenerRegistered : Bool
deriving DecidableEq, Repr

/-- `useMediaQuery` (lines 20-51): `matches` starts `false`; only when
the environment guard passes is it set from the media query and a
change listener scheduled for registration. -/
def useMediaQuery (env : BrowserEnv) (query : String) : MediaQueryHook :=
  if env.hasWindow && env.hasMatchMedia then
    { value := env.queryMatches query, listenerRegistered := true }
  else
    { value := false, listenerRegistered := false }

/-- The ref's value after a sequence of `change` events, each carrying
`event.matches`: the listener overwrites the value, but only if it was
registered. -/
def deliverEvents (h : MediaQueryHook) (events : List Bool) : Bool :=
  events.foldl
    (fun current ev => if h.listenerRegistered then ev else current)
    h.value

/-! ## Helper lemmas -/

theorem showLargeMacbook_iff (scale : ℚ) :
    showLargeMacbook scale = true ↔
      (scale = SCALE_LARGE_DESKTOP ∨ scale = SCALE_LARGE_MOBILE) := by
  simp [showLargeMacbook]

theorem watcherStep_snd_false (inp : WatchInput) :
    (watcherStep inp false).2 = false := by
  unfold watcherStep
  split <;> rfl

theorem watcherStep_eff (inp : WatchInput) (first : Bool)
    (h : effectiveInput inp = true) :
    watcherStep inp first =
      (branchCommands inp.scale (if first then 0 else ANIMATION_DURATION),
       false) := by
  unfold effectiveInput at h
  simp [watcherStep, h]

theorem watcherStep_noneff (inp : WatchInput) (first : Bool)
    (h : effectiveInput inp = false) :
    watcherStep inp first = ([], first) := by
  unfold effectiveInput at h
  simp [watcherStep, h]

theorem effOutputs_false (is : List WatchInput) :
    effOutputs is false =
      (is.filter effectiveInput).map
        (fun inp => branchCommands inp.scale ANIMATION_DURATION) := by
  induction is with
  | nil => rfl
  | cons inp rest ih =>
    cases h : effectiveInput inp with
    | false =>
      rw [effOutputs, watcherStep_noneff inp false h]
      simp [h, List.filter_cons, ih]
    | true =>
      rw [effOutputs, watcherStep_eff inp false h]
      simp [h, List.filter_cons, ih]

theorem finalFirstRun_false (is : List WatchInput) :
    finalFirstRun is false = false := by
  induction is with
  | nil => rfl
  | cons inp rest ih => rw [finalFirstRun, watcherStep_snd_false, ih]

theorem effOutputs_true (is : List WatchInput) :
    effOutputs is true =
      (match is.filter effectiveInput with
       | [] => []
       | e :: rest =>
         branchCommands e.scale 0 ::
           rest.map (fun inp => branchCommands inp.scale ANIMATION_DURATION)) := by
  induction is with
  | nil => rfl
  | cons inp rest ih =>
    cases h : effectiveInput inp with
    | false =>
      rw [effOutputs, watcherStep_noneff inp true h]
      simp only [List.filter_cons, h, Bool.false_eq_true, if_false]
      exact ih
    | true =>
      rw [effOutputs, watcherStep_eff inp true h]
      simp [h, List.filter_cons, effOutputs_false]

theorem finalFirstRun_true (is : List WatchInput) :
    finalFirstRun is true = (is.filter effectiveInput).isEmpty := by
  induction is with
  | nil => rfl
  | cons inp rest ih =>
    cases h : effectiveInput inp with
    | false =>
      rw [finalFirstRun, watcherStep_noneff inp true h]
      simp [h, List.filter_cons, ih]
    | true =>
      rw [finalFirstRun, watcherStep_eff inp true h]
      simp [h, List.filter_cons, finalFirstRun_false]

theorem applyEvent_scale_mem (s : StoreState) (e : UIEvent)
    (h : s.scale ∈ deviceScales) : (applyEvent s e).scale ∈ deviceScales := by
  cases e <;>
    simp [applyEvent, setColor, setScale, setTexture, reset, initialState] <;>
    first
      | exact h
      | norm_num [deviceScales]

theorem foldl_scale_mem (es : List UIEvent) :
    ∀ s : StoreState, s.scale ∈ deviceScales →
      (es.foldl applyEvent s).scale ∈ deviceScales := by
  induction es with
  | nil => intro s h; exact h
  | cons e rest ih =>
    intro s h
    exact ih (applyEvent s e) (applyEvent_scale_mem s e h)

theorem applyEvent_color_mem (s : StoreState) (e : UIEvent)
    (h : s.color ∈ chassisColors) : (applyEvent s e).color ∈ chassisColors := by
  cases e <;>
    simp [applyEvent, setColor, setScale, setTexture, reset, initialState] <;>
    first
      | exact h
      | simp [chassisColors]

theorem foldl_color_mem (es : List UIEvent) :
    ∀ s : StoreState, s.color ∈ chassisColors →
      (es.foldl applyEvent s).color ∈ chassisColors := by
  induction es with
  | nil => intro s h; exact h
  | cons e rest ih =>
    intro s h
    exact ih (applyEvent s e) (applyEvent_color_mem s e h)

theorem foldl_keep {α : Type} (v : α) (l : List Bool) :
    l.foldl (fun c _ => c) v = v := by
  induction l generalizing v with
  | nil => rfl
  | cons b rest ih => exact ih v

theorem deliverEvents_unregistered (h : MediaQueryHook) (events : List Bool)
    (hreg : h.listenerRegistered = false) :
    deliverEvents h events = h.value := by
  unfold deliverEvents
  simp only [hreg, Bool.false_eq_true, if_false]
  exact foldl_keep h.value events

/-! ## Claim theorems -/

/-- C1: the model-visibility switcher is a total two-branch selection on
the scale value: the 16-inch model is the target exactly when the scale
equals `SCALE_LARGE_DESKTOP = 0.08` or `SCALE_LARGE_MOBILE = 0.05`, the
14-inch model is the target in every other case, and no third outcome
exists. -/
theorem switcher_two_branch_selection (scale : ℚ) :
    (targetModel scale = ModelId.large ∨ targetModel scale = ModelId.small) ∧
    (targetModel scale = ModelId.large ↔
      (scale = SCALE_LARGE_DESKTOP ∨ scale = SCALE_LARGE_MOBILE)) ∧
    (targetModel scale = ModelId.small ↔
      ¬(scale = SCALE_LARGE_DESKTOP ∨ scale = SCALE_LARGE_MOBILE)) ∧
    SCALE_LARGE_DESKTOP = 8/100 ∧ SCALE_LARGE_MOBILE = 5/100 := by
  have hiff := showLargeMacbook_iff scale
  cases hb : showLargeMacbook scale with
  | false =>
    rw [hb] at hiff
    simp only [Bool.false_eq_true, false_iff] at hiff
    have htm : targetModel scale = ModelId.small := by simp [targetModel, hb]
    exact ⟨Or.inr htm, by simp [htm, hiff], by simp [htm, hiff], rfl, rfl⟩
  | true =>
    rw [hb] at hiff
    simp only [true_iff] at hiff
    have htm : targetModel scale = ModelId.large := by simp [targetModel, hb]
    exact ⟨Or.inl htm, by simp [htm, hiff], by simp [htm, hiff], rfl, rfl⟩

/-- Witness for C1 at the two concrete scales 0.08 (large target) and
0.06 (small target). -/
theorem switcher_two_branch_selection_spot :
    targetModel (8/100) = ModelId.large ∧
    targetModel (6/100) = ModelId.small := by
  constructor
  · exact (switcher_two_branch_selection (8/100)).2.1.mpr (Or.inl rfl)
  · refine (switcher_two_branch_selection (6/100)).2.2.1.mpr ?_
    norm_num [SCALE_LARGE_DESKTOP, SCALE_LARGE_MOBILE]

/-- C2 counterexample: on the scale change to 0.08 (both refs loaded,
not the first run) the non-target 14-inch model is not animated to
position x = 0 as the claim states; the only move it receives sends it
to x = -OFFSET_DISTANCE. -/
theorem switcher_nonTarget_not_centered :
    targetModel (8/100) = ModelId.large ∧
    TweenCommand.move ModelId.small 0 ANIMATION_DURATION ∉
      (watcherStep ⟨8/100, true, true⟩ false).1 ∧
    TweenCommand.move ModelId.small (-OFFSET_DISTANCE) ANIMATION_DURATION ∈
      (watcherStep ⟨8/100, true, true⟩ false).1 := by
  refine ⟨?_, ?_, ?_⟩
  · norm_num [targetModel, showLargeMacbook, SCALE_LARGE_DESKTOP,
      SCALE_LARGE_MOBILE]
  · norm_num [watcherStep, branchCommands, showLargeMacbook,
      ANIMATION_DURATION, OFFSET_DISTANCE, SCALE_LARGE_DESKTOP,
      SCALE_LARGE_MOBILE]
    exact ⟨by simp, by simp, by simp⟩
  · norm_num [watcherStep, branchCommands, showLargeMacbook,
      ANIMATION_DURATION, OFFSET_DISTANCE, SCALE_LARGE_DESKTOP,
      SCALE_LARGE_MOBILE]

/-- C2 (amended): on every scale change handled by the switcher with
both model refs loaded, the target model is animated to position x = 0
and opacity 1, the non-target model is animated to its off-screen
position (`slideOutX`: x = -5 for the 14-inch, x = +5 for the 16-inch)
and opacity 0, all with the same duration, and the off-screen slide is
the only move the non-target model receives. -/
theorem switcher_transition_tweens (scale : ℚ) (first : Bool) :
    TweenCommand.move (targetModel scale) 0
        (if first then 0 else ANIMATION_DURATION) ∈
      (watcherStep ⟨scale, true, true⟩ first).1 ∧
    TweenCommand.fade (targetModel scale) 1
        (if first then 0 else ANIMATION_DURATION) ∈
      (watcherStep ⟨scale, true, true⟩ first).1 ∧
    TweenCommand.move (otherModel (targetModel scale))
        (slideOutX (otherModel (targetModel scale)))
        (if first then 0 else ANIMATION_DURATION) ∈
      (watcherStep ⟨scale, true, true⟩ first).1 ∧
    TweenCommand.fade (otherModel (targetModel scale)) 0
        (if first then 0 else ANIMATION_DURATION) ∈
      (watcherStep ⟨scale, true, true⟩ first).1 ∧
    ∀ x d₂,
      TweenCommand.move (otherModel (targetModel scale)) x d₂ ∈
          (watcherStep ⟨scale, true, true⟩ first).1 →
        x = slideOutX (otherModel (targetModel scale)) ∧
        d₂ = (if first then 0 else ANIMATION_DURATION) := by
  have hout : (watcherStep ⟨scale, true, true⟩ first).1 =
      branchCommands scale (if first then 0 else ANIMATION_DURATION) := rfl
  rw [hout]
  cases hb : showLargeMacbook scale with
  | false =>
    have ht : targetModel scale = ModelId.small := by simp [targetModel, hb]
    rw [ht]
    simp only [otherModel, slideOutX]
    unfold branchCommands
    rw [hb]
    simp only [Bool.false_eq_true, if_false]
    refine ⟨by simp, by simp, by simp, by simp, ?_⟩
    intro x d₂ hmem
    simp only [List.mem_cons, List.mem_singleton, List.not_mem_nil,
      or_false] at hmem
    rcases hmem with h | h | h | h
    · exact absurd h (by simp)
    · rw [TweenCommand.move.injEq] at h
      exact ⟨h.2.1, h.2.2⟩
    · exact absurd h (by simp)
    · exact absurd h (by simp)
  | true =>
    have ht : targetModel scale = ModelId.large := by simp [targetModel, hb]
    rw [ht]
    simp only [otherModel, slideOutX]
    unfold branchCommands
    rw [hb]
    simp only [if_true]
    refine ⟨by simp, by simp, by simp, by simp, ?_⟩
    intro x d₂ hmem
    simp only [List.mem_cons, List.mem_singleton, List.not_mem_nil,
      or_false] at hmem
    rcases hmem with h | h | h | h
    · rw [TweenCommand.move.injEq] at h
      exact ⟨h.2.1, h.2.2⟩
    · exact absurd h (by simp)
    · exact absurd h (by simp)
    · exact absurd h (by simp)

/-- Witness for C2 (amended) at scale 0.06, not the first run: the
14-inch model is the target and is moved to x = 0, and the single move
the 16-inch model receives is to `slideOutX` = +5. -/
theorem switcher_transition_tweens_spot :
    TweenCommand.move (targetModel (6/100)) 0 ANIMATION_DURATION ∈
      (watcherStep ⟨6/100, true, true⟩ false).1 ∧
    OFFSET_DISTANCE = slideOutX (otherModel (targetModel (6/100))) := by
  have h := switcher_transition_tweens (6/100) false
  refine ⟨h.1, ?_⟩
  have hmem : TweenCommand.move (otherModel (targetModel (6/100)))
      OFFSET_DISTANCE ANIMATION_DURATION ∈
      (watcherStep ⟨6/100, true, true⟩ false).1 := by
    norm_num [watcherStep, branchCommands, showLargeMacbook, targetModel,
      otherModel, ANIMATION_DURATION, OFFSET_DISTANCE, SCALE_LARGE_DESKTOP,
      SCALE_LARGE_MOBILE]
  exact (h.2.2.2.2 OFFSET_DISTANCE ANIMATION_DURATION hmem).1

/-- C3: over any sequence of watcher firings starting with
`isFirstRun = true`, the first firing that passes the loaded-refs guard
issues its tweens with duration 0, every later guard-passing firing
uses `ANIMATION_DURATION = 1`, and the first-run flag is cleared by the
first guard-passing firing and is never set again. -/
theorem switcher_first_run_protocol (is : List WatchInput) :
    ANIMATION_DURATION = 1 ∧
    effOutputs is true =
      (match is.filter effectiveInput with
       | [] => []
       | e :: rest =>
         branchCommands e.scale 0 ::
           rest.map (fun inp => branchCommands inp.scale ANIMATION_DURATION)) ∧
    finalFirstRun is true = (is.filter effectiveInput).isEmpty ∧
    finalFirstRun is false = false :=
  ⟨rfl, effOutputs_true is, finalFirstRun_true is, finalFirstRun_false is⟩

/-- C4: `reset` after any sequence of setter calls with arbitrary
arguments returns the store to the exact state it was created with. -/
theorem reset_constant_defaults :
    initialState =
      { color := "#2e2c2e", scale := 8/100,
        texture := "/videos/feature-1.mp4" } ∧
    ∀ ms : List Mutation,
      reset (ms.foldl applyMutation initialState) = initialState :=
  ⟨rfl, fun _ => rfl⟩

/-- C5: in every store state reachable from the initial state through
the program's UI click handlers, the scroll timeline and the reset
action, the scale field is one of the four enumerated device-scale
values. -/
theorem reachable_scale_enumerated (es : List UIEvent) :
    (runEvents es).scale ∈ deviceScales :=
  foldl_scale_mem es initialState (by norm_num [initialState, deviceScales])

/-- C6: in every store state reachable from the initial state through
the program's UI click handlers, the scroll timeline and the reset
action, the colour field is one of the two enumerated chassis colours
Silver and Space Grey. -/
theorem reachable_color_enumerated (es : List UIEvent) :
    (runEvents es).color ∈ chassisColors :=
  foldl_color_mem es initialState (by simp [initialState, chassisColors])

/-- C7: when the 16-inch model's screen texture fails to load, the
component logs exactly one error, keeps the texture `null` so the
screen mesh falls back to the black placeholder material, renders the
rest of the model exactly as it would on success, and leaves the store
untouched; the embedding of the `try`/`catch` is a total function, so
no exception escapes. -/
theorem macbook16_texture_error_path (store : StoreState) (e : String)
    (h10 h123 huv : Bool) :
    macbook16Component store (Except.error e) h10 h123 huv =
      (store, none, [LogEvent.logError "Macbook-16: Error loading texture"],
       { groupShown := h10, screen := ScreenMaterial.blackPlaceholder }) ∧
    ∀ t : ScreenTexture,
      (macbook16Component store (Except.ok t) h10 h123 huv).2.2.2.groupShown =
        (macbook16Component store (Except.error e) h10 h123 huv).2.2.2.groupShown :=
  ⟨rfl, fun _ => rfl⟩

/-- C8: the store's texture URL drives the screen video: a change to a
non-empty URL sets the video's `src`, starts playback and creates the
video texture on first use (keeping the existing one afterwards); a
change to the empty URL pauses the video and changes nothing else; the
screen mesh shows the video texture when one exists and black
otherwise. -/
theorem texture_url_drives_video (url : String) (v : VideoElement)
    (vt : Option VideoTexture) :
    (url ≠ "" →
      (textureSyncStep url v vt).1.src = url ∧
      (textureSyncStep url v vt).1.playing = true ∧
      (vt = none → (textureSyncStep url v vt).2 = some newVideoTexture) ∧
      (∀ t, vt = some t → (textureSyncStep url v vt).2 = some t)) ∧
    (url = "" →
      (textureSyncStep url v vt).1.playing = false ∧
      (textureSyncStep url v vt).1.src = v.src ∧
      (textureSyncStep url v vt).2 = vt) ∧
    (∀ t, featureScreenMaterial (some t) =
      FeatureScreenMaterial.videoTextured t) ∧
    featureScreenMaterial none = FeatureScreenMaterial.blackColor := by
  refine ⟨?_, ?_, fun _ => rfl, rfl⟩
  · intro h
    cases vt with
    | none => simp [textureSyncStep, h]
    | some t => simp [textureSyncStep, h]
  · intro h
    simp [textureSyncStep, h]

/-- Witness for C8: switching to the second feature video from a fresh
video element creates the texture and starts playback; an empty URL
pauses. -/
theorem texture_url_drives_video_spot :
    (textureSyncStep "/videos/feature-2.mp4"
        ⟨"/videos/feature-1.mp4", true⟩ none).1.src = "/videos/feature-2.mp4" ∧
    (textureSyncStep "/videos/feature-2.mp4"
        ⟨"/videos/feature-1.mp4", true⟩ none).2 = some newVideoTexture ∧
    (textureSyncStep "" ⟨"/videos/feature-2.mp4", true⟩
        (some newVideoTexture)).1.playing = false := by
  have h₁ := texture_url_drives_video "/videos/feature-2.mp4"
    ⟨"/videos/feature-1.mp4", true⟩ none
  have h₂ := texture_url_drives_video "" ⟨"/videos/feature-2.mp4", true⟩
    (some newVideoTexture)
  have hne : "/videos/feature-2.mp4" ≠ "" := by simp
  exact ⟨(h₁.1 hne).1, (h₁.1 hne).2.2.1 rfl, (h₂.2.1 rfl).1⟩

/-- C9: each store setter mutates only its own field: `setColor` writes
the colour and preserves scale and texture, `setScale` writes the scale
and preserves colour and texture, `setTexture` writes the texture and
preserves colour and scale, for every state and every argument. -/
theorem setters_touch_only_own_field (s : StoreState) (c : String) (q : ℚ)
    (t : String) :
    (setColor s c).color = c ∧ (setColor s c).scale = s.scale ∧
    (setColor s c).texture = s.texture ∧
    (setScale s q).scale = q ∧ (setScale s q).color = s.color ∧
    (setScale s q).texture = s.texture ∧
    (setTexture s t).texture = t ∧ (setTexture s t).color = s.color ∧
    (setTexture s t).scale = s.scale :=
  ⟨rfl, rfl, rfl, rfl, rfl, rfl, rfl, rfl, rfl⟩

/-- C10: `useMediaQuery` is total and SSR-safe: its value equals the
media query's answer exactly when both `window` and `matchMedia` exist,
and when either is unavailable the returned ref is `false`, stays
`false` under any sequence of change events, and no listener is ever
registered. -/
theorem useMediaQuery_ssr_safe (env : BrowserEnv) (query : String)
    (events : List Bool) :
    (useMediaQuery env query).value =
      (env.hasWindow && env.hasMatchMedia && env.queryMatches query) ∧
    ((env.hasWindow && env.hasMatchMedia) = false →
      (useMediaQuery env query).listenerRegistered = false ∧
      (useMediaQuery env query).value = false ∧
      deliverEvents (useMediaQuery env query) events = false) := by
  constructor
  · unfold useMediaQuery
    cases hw : env.hasWindow <;> cases hm : env.hasMatchMedia <;> simp
  · intro h
    have hres : useMediaQuery env query =
        { value := false, listenerRegistered := false } := by
      unfold useMediaQuery
      rw [h]
      rfl
    rw [hres]
    exact ⟨rfl, rfl, deliverEvents_unregistered _ events rfl⟩

/-- Witness for C10 in an environment with no `window`: the ref is
false even after change events and no listener is registered. -/
theorem useMediaQuery_ssr_safe_spot :
    (useMediaQuery ⟨false, false, fun _ => true⟩
      "(max-width: 1024px)").listenerRegistered = false ∧
    deliverEvents
      (useMediaQuery ⟨false, false, fun _ => true⟩ "(max-width: 1024px)")
      [true, true] = false := by
  have h := useMediaQuery_ssr_safe ⟨false, false, fun _ => true⟩
    "(max-width: 1024px)" [true, true]
  exact ⟨(h.2 rfl).1, (h.2 rfl).2.2⟩

end MacbookSite
